import Mathlib

/-!
# wechatgptbot: session cache and reply pipeline

A shallow embedding of `main.go`: the process-wide `history` cache, the
`GPTClient.Completion` round, the three repliers and the two dispatcher
handlers, followed by theorems about them.

Modelling conventions.

* A Go `error` is represented by its `Error()` text; `nil` is `none`.
* Everything the code obtains from outside the process (wall clock, the token
  endpoint, the completion endpoint, the messaging client's `ReplyText`) is a
  field of `World`, one `World` per call of `Reply`.
* The effects of a call are returned explicitly: the cache afterwards, the
  ordered list of external calls made (`Event`), and the returned error.
* `history` is a `github.com/patrickmn/go-cache` cache.  Its `Get` and `Set`
  are modelled on a map from key to `Item` (stored object and expiry instant in
  nanoseconds, `0` meaning "never").  Times are `Int`; the `int64` range is not
  reached by nanosecond clocks.  The cache's background sweep only deletes
  entries that `Get` already treats as absent, so it is left out.
* A Go slice is modelled by the list of its visible elements.  The cache holds
  at most one slice per key, each round reads that slice and stores a slice of
  the same backing array or a fresh one, so `append` never changes the visible
  elements of a stored slice when rounds run one after another.
-/

namespace WechatGPTBot

/-! ## Data model -/

/-- Role tags of `openai.CompletionMessage` (`openai.RoleUser` and relatives). -/
inductive Role where
  | system
  | user
  | assistant
  deriving DecidableEq

/-- One turn, `openai.CompletionMessage`. -/
structure CompletionMessage where
  Role : Role
  Content : String
  deriving DecidableEq

/-- An ordered sequence of turns, `openai.CompletionMessages`. -/
abbrev CompletionMessages := List CompletionMessage

/-- `time.Minute`, in nanoseconds. -/
def Minute : Int := 60000000000

/-- An entry of the cache: the stored object and its expiry instant. -/
structure Item where
  Object : CompletionMessages
  Expiration : Int
  deriving DecidableEq

/-- The cache: default expiry and the map from key to entry. -/
structure Cache where
  defaultExpiration : Int
  items : String → Option Item

/-- `cache.New(defaultExpiration, cleanupInterval)`: an empty map. -/
def Cache.New (defaultExpiration : Int) : Cache :=
  ⟨defaultExpiration, fun _ => none⟩

/-- `Cache.Get` at clock reading `now`: the object when the key is present and
its entry has not expired. -/
def Cache.Get (c : Cache) (k : String) (now : Int) : Option CompletionMessages :=
  match c.items k with
  | none => none
  | some item =>
    if item.Expiration > 0 ∧ now > item.Expiration then none else some item.Object

/-- `Cache.Set` at clock reading `now`: replaces the entry under `k`; a duration
of `0` stands for the default expiry, a positive duration gives the expiry
instant `now + d`, a negative one gives no expiry. -/
def Cache.Set (c : Cache) (k : String) (x : CompletionMessages) (d : Int) (now : Int) : Cache :=
  let d := if d = 0 then c.defaultExpiration else d
  let e := if d > 0 then now + d else 0
  { c with items := fun k' => if k' = k then some ⟨x, e⟩ else c.items k' }

/-- The package-level `history = cache.New(time.Minute*10, time.Minute)`. -/
def history : Cache := Cache.New (Minute * 10)

/-- The part of `openwechat.User` the code reads. -/
structure User where
  UserName : String
  deriving DecidableEq

/-- The part of `openwechat.Message` (and of its `MessageContext`) the code
reads: the result of each accessor it calls. -/
structure Message where
  IsText : Bool
  Content : String
  Sender : Except String User
  SenderInGroup : Except String User
  IsAt : Bool
  OwnerNickName : String

/-- The outside world during one call of `Reply`. -/
structure World where
  /-- Clock reading when `history.Get` runs. -/
  nowGet : Int
  /-- Clock reading when `history.Set` runs. -/
  nowSet : Int
  /-- Outcome of the token exchange in `getAccessToken`. -/
  getAccessToken : Except String String
  /-- Outcome of `client.Completion` for a token and a turn sequence:
  the response's `MessageContent()` or the error. -/
  clientCompletion : String → CompletionMessages → Except String String
  /-- Error result of `msg.ReplyText` for a text. -/
  ReplyText : String → Option String

/-- External calls, in the order they are made. -/
inductive Event where
  | completion (messages : CompletionMessages)
  | replyText (text : String)
  | historySet (key : String) (messages : CompletionMessages)
  | logPrintln (err : String)
  deriving DecidableEq

/-- What a call of `Reply` leaves behind. -/
structure Outcome where
  store : Cache
  trace : List Event
  err : Option String

/-! ## Operations -/

/-- `GPTClient.Completion`: token first, then the completion request.  Parsing
the constant base URL cannot fail, so that branch has no counterpart here. -/
def GPTClient.Completion (w : World) (messages : CompletionMessages) : Except String String :=
  match w.getAccessToken with
  | .error err => .error err
  | .ok ak =>
    match w.clientCompletion ak messages with
    | .error err => .error err
    | .ok resp => .ok resp

/-- The receiver of `GPTReplier.Reply`. -/
structure GPTReplier where
  key : String
  deriving DecidableEq

/-- `GPTReplier.Reply`. -/
def GPTReplier.Reply (r : GPTReplier) (msg : Message) (w : World) (history : Cache) : Outcome :=
  if !msg.IsText then
    ⟨history, [], none⟩
  else
    let item : CompletionMessages :=
      match history.Get r.key w.nowGet with
      | some item => item
      | none => []
    let messages := item ++ [⟨Role.user, msg.Content⟩]
    match GPTClient.Completion w messages with
    | .error err =>
      ⟨history, [Event.completion messages, Event.replyText err], w.ReplyText err⟩
    | .ok resp =>
      let err := w.ReplyText resp
      let stored :=
        if messages.length > 20 then messages.drop (messages.length - 20) else messages
      ⟨history.Set r.key stored (Minute * 10) w.nowSet,
        [Event.completion messages, Event.replyText resp, Event.historySet r.key stored],
        err⟩

/-- `FriendReplier.Reply`. -/
def FriendReplier.Reply (msg : Message) (w : World) (history : Cache) : Outcome :=
  match msg.Sender with
  | .error err => ⟨history, [], some err⟩
  | .ok sender => GPTReplier.Reply ⟨sender.UserName⟩ msg w history

/-- `GroupReplier.Reply`. -/
def GroupReplier.Reply (msg : Message) (w : World) (history : Cache) : Outcome :=
  match msg.SenderInGroup with
  | .error err => ⟨history, [], some err⟩
  | .ok sender => GPTReplier.Reply ⟨sender.UserName⟩ msg w history

/-- `strings.Contains`. -/
def stringsContains (s substr : String) : Bool :=
  s.data.tails.any (fun t => substr.data.isPrefixOf t)

/-- The handler the dispatcher runs after a replier returns `err`: log it. -/
def logged (o : Outcome) : Outcome :=
  match o.err with
  | some err => ⟨o.store, o.trace ++ [Event.logPrintln err], none⟩
  | none => ⟨o.store, o.trace, none⟩

/-- The `dispatcher.OnFriend` handler of `main`. -/
def OnFriend (msg : Message) (w : World) (history : Cache) : Outcome :=
  logged (FriendReplier.Reply msg w history)

/-- The `dispatcher.OnGroup` handler of `main`. -/
def OnGroup (ctx : Message) (w : World) (history : Cache) : Outcome :=
  if ctx.IsAt && stringsContains ctx.Content ctx.OwnerNickName then
    logged (GroupReplier.Reply ctx w history)
  else
    ⟨history, [], none⟩

/-! ## Observers used in the statements -/

/-- The world `w` with the relay behaving as `relay`, everything else equal. -/
def World.withRelay (w : World) (relay : String → Option String) : World :=
  ⟨w.nowGet, w.nowSet, w.getAccessToken, w.clientCompletion, relay⟩


/-- The history stored for a key as a round sees it at clock reading `now`:
the cached sequence, or the empty one when the key is absent or expired. -/
def storedHistory (c : Cache) (k : String) (now : Int) : CompletionMessages :=
  (c.Get k now).getD []

/-- The last `n` elements of a sequence, in order. -/
def lastN (n : Nat) (t : CompletionMessages) : CompletionMessages :=
  (t.reverse.take n).reverse

/-- The turn sequences handed to `GPTClient.Completion`, in call order. -/
def completionCalls : List Event → List CompletionMessages
  | [] => []
  | Event.completion m :: es => m :: completionCalls es
  | _ :: es => completionCalls es

/-- The texts handed to `ReplyText`, in call order. -/
def relayCalls : List Event → List String
  | [] => []
  | Event.replyText t :: es => t :: relayCalls es
  | _ :: es => relayCalls es

/-- The writes made with `history.Set`, in call order. -/
def storeWrites : List Event → List (String × CompletionMessages)
  | [] => []
  | Event.historySet k m :: es => (k, m) :: storeWrites es
  | _ :: es => storeWrites es

/-- One call of `GPTReplier.Reply`: receiver key, message, and the world it
runs in. -/
structure Call where
  key : String
  msg : Message
  world : World

/-- The cache after a sequence of `GPTReplier.Reply` calls, run in order. -/
def runCalls (c : Cache) : List Call → Cache
  | [] => c
  | x :: xs => runCalls (GPTReplier.Reply ⟨x.key⟩ x.msg x.world c).store xs

/-! ## Concrete inputs used in the examples -/

/-- A direct text message "hello" from the contact whose `UserName` is
"@alice". -/
def helloMsg : Message :=
  ⟨true, "hello", .ok ⟨"@alice"⟩, .error "message is not from group", false, "bot"⟩

/-- A non-text direct message (for instance an image) from the same contact. -/
def imageMsg : Message :=
  ⟨false, "", .ok ⟨"@alice"⟩, .error "message is not from group", false, "bot"⟩

/-- A group text message mentioning the bot, sent in group "@@room" by the
member whose `UserName` is "@alice". -/
def groupMsg : Message :=
  ⟨true, "@bot hey", .ok ⟨"@@room"⟩, .ok ⟨"@alice"⟩, true, "bot"⟩

/-- The same group message from a member reported under another `UserName`. -/
def groupMsgBob : Message :=
  ⟨true, "@bot hey", .ok ⟨"@@room"⟩, .ok ⟨"@bob"⟩, true, "bot"⟩

/-- A group text message that names the bot without the mention flag. -/
def unmentionedMsg : Message :=
  ⟨true, "bot, are you there?", .ok ⟨"@@room"⟩, .ok ⟨"@alice"⟩, false, "bot"⟩

/-- A world at clock reading `0` where the completion round answers `reply`
and the relay succeeds. -/
def okWorld (reply : String) : World :=
  ⟨0, 0, .ok "ak", fun _ _ => .ok reply, fun _ => none⟩

/-- A world at clock reading `0` where the token exchange fails and the relay
succeeds. -/
def authFailWorld : World :=
  ⟨0, 0, .error "auth failed", fun _ _ => .ok "unused", fun _ => none⟩

/-- A world at clock reading `0` where the completion round answers `reply`
and the relay fails. -/
def relayFailWorld (reply : String) : World :=
  ⟨0, 0, .ok "ak", fun _ _ => .ok reply, fun _ => some "send failed"⟩

/-- One successful text round on key "k". -/
def helloCall : Call := ⟨"k", helloMsg, okWorld "hi there"⟩

/-- The cache after twenty successful text rounds on key "k": the window is
full. -/
def fullCache : Cache := runCalls history (List.replicate 20 helloCall)

/-! ## Shared lemmas -/

theorem lastN_eq_drop (n : Nat) (t : CompletionMessages) :
    lastN n t = t.drop (t.length - n) := by
  unfold lastN
  rw [List.take_reverse, List.reverse_reverse]

theorem window_eq_lastN (t : CompletionMessages) :
    (if t.length > 20 then t.drop (t.length - 20) else t) = lastN 20 t := by
  rw [lastN_eq_drop]
  split
  · rfl
  · next h =>
    have h0 : t.length - 20 = 0 := by omega
    rw [h0, List.drop_zero]

theorem minute_pos : (0 : Int) < Minute * 10 := by decide

theorem minute_ne : ¬ (Minute * 10 = 0) := by decide

theorem set_items (c : Cache) (k : String) (x : CompletionMessages) (now : Int) (k' : String) :
    (c.Set k x (Minute * 10) now).items k' =
      if k' = k then some ⟨x, now + Minute * 10⟩ else c.items k' := by
  unfold Cache.Set
  simp only [if_neg minute_ne, if_pos minute_pos]

theorem storedHistory_def (c : Cache) (k : String) (now : Int) :
    (match c.Get k now with
      | some item => item
      | none => ([] : CompletionMessages)) = storedHistory c k now := by
  unfold storedHistory
  cases c.Get k now <;> rfl

/-! The three ways a call of `GPTReplier.Reply` can go, with the history the
round loaded written as `storedHistory`. -/

theorem reply_nontext (r : GPTReplier) (msg : Message) (w : World) (c : Cache)
    (h : msg.IsText = false) : GPTReplier.Reply r msg w c = ⟨c, [], none⟩ := by
  simp [GPTReplier.Reply, h]

theorem reply_error (r : GPTReplier) (msg : Message) (w : World) (c : Cache) (e : String)
    (hText : msg.IsText = true)
    (hErr : GPTClient.Completion w
      (storedHistory c r.key w.nowGet ++ [⟨Role.user, msg.Content⟩]) = .error e) :
    GPTReplier.Reply r msg w c =
      ⟨c, [Event.completion (storedHistory c r.key w.nowGet ++ [⟨Role.user, msg.Content⟩]),
            Event.replyText e], w.ReplyText e⟩ := by
  simp only [GPTReplier.Reply, hText, storedHistory_def, hErr]
  rfl

theorem reply_ok (r : GPTReplier) (msg : Message) (w : World) (c : Cache) (resp : String)
    (hText : msg.IsText = true)
    (hOk : GPTClient.Completion w
      (storedHistory c r.key w.nowGet ++ [⟨Role.user, msg.Content⟩]) = .ok resp) :
    GPTReplier.Reply r msg w c =
      ⟨c.Set r.key (lastN 20 (storedHistory c r.key w.nowGet ++ [⟨Role.user, msg.Content⟩]))
          (Minute * 10) w.nowSet,
        [Event.completion (storedHistory c r.key w.nowGet ++ [⟨Role.user, msg.Content⟩]),
          Event.replyText resp,
          Event.historySet r.key
            (lastN 20 (storedHistory c r.key w.nowGet ++ [⟨Role.user, msg.Content⟩]))],
        w.ReplyText resp⟩ := by
  simp only [GPTReplier.Reply, hText, storedHistory_def, hOk, window_eq_lastN]
  rfl

theorem storedHistory_of_item (c : Cache) (k : String) (now : Int) (item : Item)
    (h : c.items k = some item) (hnow : now ≤ item.Expiration) :
    storedHistory c k now = item.Object := by
  unfold storedHistory Cache.Get
  rw [h]
  have hne : ¬ (item.Expiration > 0 ∧ now > item.Expiration) := by
    intro h; omega
  simp only [if_neg hne, Option.getD_some]

theorem lastN_length (n : Nat) (t : CompletionMessages) : (lastN n t).length ≤ n := by
  rw [lastN_eq_drop, List.length_drop]; omega

/-- One call of `GPTReplier.Reply` keeps every cached sequence within 20. -/
theorem reply_keeps_window (r : GPTReplier) (msg : Message) (w : World) (c : Cache)
    (hc : ∀ k item, c.items k = some item → item.Object.length ≤ 20) :
    ∀ k item, (GPTReplier.Reply r msg w c).store.items k = some item →
      item.Object.length ≤ 20 := by
  intro k item
  cases hText : msg.IsText with
  | false => rw [reply_nontext r msg w c hText]; exact hc k item
  | true =>
    cases hC : GPTClient.Completion w
        (storedHistory c r.key w.nowGet ++ [⟨Role.user, msg.Content⟩]) with
    | error e => rw [reply_error r msg w c e hText hC]; exact hc k item
    | ok resp =>
      rw [reply_ok r msg w c resp hText hC]
      simp only [set_items]
      split
      · intro h
        cases h
        exact lastN_length 20 _
      · exact hc k item

theorem runCalls_keeps_window (calls : List Call) (c : Cache)
    (hc : ∀ k item, c.items k = some item → item.Object.length ≤ 20) :
    ∀ k item, (runCalls c calls).items k = some item → item.Object.length ≤ 20 := by
  induction calls generalizing c with
  | nil => exact hc
  | cons x xs ih => exact ih _ (reply_keeps_window ⟨x.key⟩ x.msg x.world c hc)

theorem storedHistory_congr (c c' : Cache) (k : String) (now : Int)
    (h : c.items k = c'.items k) : storedHistory c k now = storedHistory c' k now := by
  unfold storedHistory Cache.Get
  rw [h]

/-- A call of `GPTReplier.Reply` changes no entry but the one under its key. -/
theorem reply_frame (r : GPTReplier) (msg : Message) (w : World) (c : Cache) (k : String)
    (hk : k ≠ r.key) : (GPTReplier.Reply r msg w c).store.items k = c.items k := by
  cases hText : msg.IsText with
  | false => rw [reply_nontext r msg w c hText]
  | true =>
    cases hC : GPTClient.Completion w
        (storedHistory c r.key w.nowGet ++ [⟨Role.user, msg.Content⟩]) with
    | error e => rw [reply_error r msg w c e hText hC]
    | ok resp =>
      rw [reply_ok r msg w c resp hText hC]
      simp only [set_items, if_neg hk]

/-- The external calls and the result of `GPTReplier.Reply` depend on the
cache only through the entry under its key. -/
theorem reply_local (r : GPTReplier) (msg : Message) (w : World) (c c' : Cache)
    (h : c.items r.key = c'.items r.key) :
    (GPTReplier.Reply r msg w c).trace = (GPTReplier.Reply r msg w c').trace ∧
    (GPTReplier.Reply r msg w c).err = (GPTReplier.Reply r msg w c').err := by
  have hs := storedHistory_congr c c' r.key w.nowGet h
  cases hText : msg.IsText with
  | false =>
    rw [reply_nontext r msg w c hText, reply_nontext r msg w c' hText]
    exact ⟨rfl, rfl⟩
  | true =>
    cases hC : GPTClient.Completion w
        (storedHistory c r.key w.nowGet ++ [⟨Role.user, msg.Content⟩]) with
    | error e =>
      have hC' := hC
      rw [hs] at hC'
      rw [reply_error r msg w c e hText hC, reply_error r msg w c' e hText hC', hs]
      exact ⟨rfl, rfl⟩
    | ok resp =>
      have hC' := hC
      rw [hs] at hC'
      rw [reply_ok r msg w c resp hText hC, reply_ok r msg w c' resp hText hC', hs]
      exact ⟨rfl, rfl⟩

/-! ## Successful round (C1) -/

/-- C1, counterexample: with an empty history, the message "hello" and a
completion that succeeds with "hi there", the history stored afterwards is
the user turn alone, not the user turn followed by the assistant turn. -/
theorem C1_assistant_turn_not_stored :
    GPTClient.Completion (okWorld "hi there")
        (storedHistory history "k" 0 ++ [⟨Role.user, "hello"⟩]) = .ok "hi there" ∧
    storedHistory (GPTReplier.Reply ⟨"k"⟩ helloMsg (okWorld "hi there") history).store "k" 0 =
      [⟨Role.user, "hello"⟩] ∧
    storedHistory (GPTReplier.Reply ⟨"k"⟩ helloMsg (okWorld "hi there") history).store "k" 0 ≠
      lastN 20 (storedHistory history "k" 0 ++
        [⟨Role.user, "hello"⟩, ⟨Role.assistant, "hi there"⟩]) :=
  ⟨rfl, by decide, by decide⟩

/-- C1, amended: when the message is text and the completion succeeds, the
entry written under the key holds the last 20 elements of the loaded history
followed by the user turn (the reply is relayed but not appended), with expiry
ten minutes after the write; it is what a later round loads until then.  A
history shorter than 20 is stored whole with the user turn appended; a
20-entry history loses its oldest entry. -/
theorem C1_success_stores_user_turn (r : GPTReplier) (msg : Message) (w : World) (c : Cache)
    (resp : String) (hText : msg.IsText = true)
    (hOk : GPTClient.Completion w
      (storedHistory c r.key w.nowGet ++ [⟨Role.user, msg.Content⟩]) = .ok resp) :
    (GPTReplier.Reply r msg w c).store.items r.key =
        some ⟨lastN 20 (storedHistory c r.key w.nowGet ++ [⟨Role.user, msg.Content⟩]),
          w.nowSet + Minute * 10⟩ ∧
    (∀ now, now ≤ w.nowSet + Minute * 10 →
      storedHistory (GPTReplier.Reply r msg w c).store r.key now =
        lastN 20 (storedHistory c r.key w.nowGet ++ [⟨Role.user, msg.Content⟩])) ∧
    ((storedHistory c r.key w.nowGet).length < 20 →
      lastN 20 (storedHistory c r.key w.nowGet ++ [⟨Role.user, msg.Content⟩]) =
        storedHistory c r.key w.nowGet ++ [⟨Role.user, msg.Content⟩]) ∧
    ((storedHistory c r.key w.nowGet).length = 20 →
      lastN 20 (storedHistory c r.key w.nowGet ++ [⟨Role.user, msg.Content⟩]) =
        (storedHistory c r.key w.nowGet).drop 1 ++ [⟨Role.user, msg.Content⟩]) := by
  have hItem : (GPTReplier.Reply r msg w c).store.items r.key =
      some ⟨lastN 20 (storedHistory c r.key w.nowGet ++ [⟨Role.user, msg.Content⟩]),
        w.nowSet + Minute * 10⟩ := by
    rw [reply_ok r msg w c resp hText hOk]
    simp only [set_items, if_true]
  refine ⟨hItem, ?_, ?_, ?_⟩
  · intro now hnow
    exact storedHistory_of_item _ _ _ _ hItem hnow
  · intro hlen
    rw [lastN_eq_drop]
    have h0 : (storedHistory c r.key w.nowGet ++
        [(⟨Role.user, msg.Content⟩ : CompletionMessage)]).length - 20 = 0 := by
      rw [List.length_append, List.length_singleton]; omega
    rw [h0, List.drop_zero]
  · intro hlen
    rw [lastN_eq_drop]
    have h1 : (storedHistory c r.key w.nowGet ++
        [(⟨Role.user, msg.Content⟩ : CompletionMessage)]).length - 20 = 1 := by
      rw [List.length_append, List.length_singleton]; omega
    rw [h1, List.drop_append_of_le_length (by omega)]

theorem C1_success_stores_user_turn_witness :
    helloMsg.IsText = true ∧
    GPTClient.Completion (okWorld "hi there")
        (storedHistory history "k" 0 ++ [⟨Role.user, "hello"⟩]) = .ok "hi there" ∧
    storedHistory (GPTReplier.Reply ⟨"k"⟩ helloMsg (okWorld "hi there") history).store "k" 0 =
      [⟨Role.user, "hello"⟩] :=
  ⟨rfl, rfl,
    ((C1_success_stores_user_turn ⟨"k"⟩ helloMsg (okWorld "hi there") history "hi there"
      rfl rfl).2.1 0 (by decide)).trans (by decide)⟩

/-! ## Failed round (C2) -/

/-- C2, counterexample: from the empty cache, a text round whose completion
fails leaves no history for the key, not a history holding the user turn. -/
theorem C2_failed_round_stores_nothing :
    GPTClient.Completion authFailWorld
        (storedHistory history "k" 0 ++ [⟨Role.user, "hello"⟩]) = .error "auth failed" ∧
    (GPTReplier.Reply ⟨"k"⟩ helloMsg authFailWorld history).store.items "k" = none ∧
    storedHistory (GPTReplier.Reply ⟨"k"⟩ helloMsg authFailWorld history).store "k" 0 = [] ∧
    storedHistory (GPTReplier.Reply ⟨"k"⟩ helloMsg authFailWorld history).store "k" 0 ≠
      lastN 20 (storedHistory history "k" 0 ++ [⟨Role.user, "hello"⟩]) :=
  ⟨rfl, by decide, by decide, by decide⟩

/-- C2, amended: when the message is text and the completion fails,
`GPTReplier.Reply` makes no `history.Set` call and leaves the cache exactly as
it was, so the history a later round loads for any key is unchanged. -/
theorem C2_failed_round_leaves_store (r : GPTReplier) (msg : Message) (w : World) (c : Cache)
    (e : String) (hText : msg.IsText = true)
    (hErr : GPTClient.Completion w
      (storedHistory c r.key w.nowGet ++ [⟨Role.user, msg.Content⟩]) = .error e) :
    (GPTReplier.Reply r msg w c).store = c ∧
    storeWrites (GPTReplier.Reply r msg w c).trace = [] ∧
    ∀ k now, storedHistory (GPTReplier.Reply r msg w c).store k now = storedHistory c k now := by
  rw [reply_error r msg w c e hText hErr]
  exact ⟨rfl, rfl, fun _ _ => rfl⟩

theorem C2_failed_round_leaves_store_witness :
    helloMsg.IsText = true ∧
    GPTClient.Completion authFailWorld
        (storedHistory fullCache "k" 0 ++ [⟨Role.user, "hello"⟩]) = .error "auth failed" ∧
    (GPTReplier.Reply ⟨"k"⟩ helloMsg authFailWorld fullCache).store = fullCache :=
  ⟨rfl, rfl,
    (C2_failed_round_leaves_store ⟨"k"⟩ helloMsg authFailWorld fullCache "auth failed"
      rfl rfl).1⟩

/-! ## Window invariant (C3) -/

/-- C3: starting from the empty cache, after any finite sequence of
`GPTReplier.Reply` calls (any keys, messages and worlds), every entry of the
cache holds at most 20 turns. -/
theorem C3_window_invariant (calls : List Call) (k : String) (item : Item)
    (h : (runCalls history calls).items k = some item) : item.Object.length ≤ 20 :=
  runCalls_keeps_window calls history (fun _ _ h0 => by cases h0) k item h

theorem C3_window_invariant_witness :
    (runCalls history (List.replicate 21 helloCall)).items "k" =
      some ⟨List.replicate 20 ⟨Role.user, "hello"⟩, Minute * 10⟩ ∧
    (List.replicate 20 (⟨Role.user, "hello"⟩ : CompletionMessage)).length ≤ 20 :=
  ⟨by decide,
    C3_window_invariant (List.replicate 21 helloCall) "k"
      ⟨List.replicate 20 ⟨Role.user, "hello"⟩, Minute * 10⟩ (by decide)⟩

/-! ## Truncation (C4) -/

/-- C4: in a successful text round, the sequence `written` by `history.Set` is
obtained from the sequence `t` that reaches the truncate step (loaded history
followed by the user turn) by removing a prefix `dropped` of exactly
`len t - 20` oldest elements: `t = dropped ++ written`.  Hence `written` is
`t` itself when `len t ≤ 20` and the last 20 elements of `t`, in order,
otherwise. -/
theorem C4_truncation_keeps_recent (r : GPTReplier) (msg : Message) (w : World) (c : Cache)
    (resp : String) (hText : msg.IsText = true)
    (hOk : GPTClient.Completion w
      (storedHistory c r.key w.nowGet ++ [⟨Role.user, msg.Content⟩]) = .ok resp) :
    ∃ written dropped : CompletionMessages,
      storeWrites (GPTReplier.Reply r msg w c).trace = [(r.key, written)] ∧
      (GPTReplier.Reply r msg w c).store.items r.key =
        some ⟨written, w.nowSet + Minute * 10⟩ ∧
      storedHistory c r.key w.nowGet ++ [⟨Role.user, msg.Content⟩] = dropped ++ written ∧
      dropped.length =
        (storedHistory c r.key w.nowGet ++
          [(⟨Role.user, msg.Content⟩ : CompletionMessage)]).length - 20 ∧
      written.length =
        min (storedHistory c r.key w.nowGet ++
          [(⟨Role.user, msg.Content⟩ : CompletionMessage)]).length 20 ∧
      ((storedHistory c r.key w.nowGet ++
          [(⟨Role.user, msg.Content⟩ : CompletionMessage)]).length ≤ 20 →
        written = storedHistory c r.key w.nowGet ++ [⟨Role.user, msg.Content⟩]) ∧
      written = lastN 20 (storedHistory c r.key w.nowGet ++ [⟨Role.user, msg.Content⟩]) := by
  refine ⟨lastN 20 (storedHistory c r.key w.nowGet ++ [⟨Role.user, msg.Content⟩]),
    (storedHistory c r.key w.nowGet ++ [(⟨Role.user, msg.Content⟩ : CompletionMessage)]).take
      ((storedHistory c r.key w.nowGet ++
        [(⟨Role.user, msg.Content⟩ : CompletionMessage)]).length - 20),
    ?_, ?_, ?_, ?_, ?_, ?_, rfl⟩
  · rw [reply_ok r msg w c resp hText hOk]; rfl
  · rw [reply_ok r msg w c resp hText hOk]
    simp only [set_items, if_true]
  · rw [lastN_eq_drop, List.take_append_drop]
  · rw [List.length_take]; omega
  · rw [lastN_eq_drop, List.length_drop]; omega
  · intro hlen
    rw [lastN_eq_drop]
    have h0 : (storedHistory c r.key w.nowGet ++
        [(⟨Role.user, msg.Content⟩ : CompletionMessage)]).length - 20 = 0 := by omega
    rw [h0, List.drop_zero]

theorem C4_truncation_keeps_recent_witness :
    helloMsg.IsText = true ∧
    GPTClient.Completion (okWorld "hi there")
        (storedHistory fullCache "k" 0 ++ [⟨Role.user, "hello"⟩]) = .ok "hi there" ∧
    (storedHistory fullCache "k" 0 ++ [(⟨Role.user, "hello"⟩ : CompletionMessage)]).length = 21 ∧
    ∃ written dropped : CompletionMessages,
      storeWrites (GPTReplier.Reply ⟨"k"⟩ helloMsg (okWorld "hi there") fullCache).trace =
        [("k", written)] ∧
      storedHistory fullCache "k" 0 ++ [⟨Role.user, "hello"⟩] = dropped ++ written ∧
      dropped.length = 1 ∧ written.length = 20 := by
  obtain ⟨written, dropped, h1, _, h3, h4, h5, _, _⟩ :=
    C4_truncation_keeps_recent ⟨"k"⟩ helloMsg (okWorld "hi there") fullCache "hi there"
      rfl rfl
  have hlen : (storedHistory fullCache "k" 0 ++
      [(⟨Role.user, "hello"⟩ : CompletionMessage)]).length = 21 := by decide
  refine ⟨rfl, rfl, hlen, written, dropped, h1, h3, ?_, ?_⟩
  · rw [h4]
    exact congrArg (fun n => n - 20) hlen
  · rw [h5]
    exact congrArg (fun n => min n 20) hlen

/-! ## Non-text messages (C5) -/

/-- C5: for a message with `IsText() = false`, `GPTReplier.Reply` returns nil,
makes no external call at all (no completion, no relay, no `history.Set`) and
returns the cache exactly as it was. -/
theorem C5_nontext_skip (r : GPTReplier) (msg : Message) (w : World) (c : Cache)
    (h : msg.IsText = false) :
    (GPTReplier.Reply r msg w c).err = none ∧
    (GPTReplier.Reply r msg w c).trace = [] ∧
    completionCalls (GPTReplier.Reply r msg w c).trace = [] ∧
    relayCalls (GPTReplier.Reply r msg w c).trace = [] ∧
    storeWrites (GPTReplier.Reply r msg w c).trace = [] ∧
    (GPTReplier.Reply r msg w c).store = c := by
  rw [reply_nontext r msg w c h]
  exact ⟨rfl, rfl, rfl, rfl, rfl, rfl⟩

theorem C5_nontext_skip_witness :
    imageMsg.IsText = false ∧
    (GPTReplier.Reply ⟨"k"⟩ imageMsg (okWorld "hi there") fullCache).err = none ∧
    (GPTReplier.Reply ⟨"k"⟩ imageMsg (okWorld "hi there") fullCache).trace = [] ∧
    (GPTReplier.Reply ⟨"k"⟩ imageMsg (okWorld "hi there") fullCache).store = fullCache :=
  ⟨rfl,
    (C5_nontext_skip ⟨"k"⟩ imageMsg (okWorld "hi there") fullCache rfl).1,
    (C5_nontext_skip ⟨"k"⟩ imageMsg (okWorld "hi there") fullCache rfl).2.1,
    (C5_nontext_skip ⟨"k"⟩ imageMsg (okWorld "hi there") fullCache rfl).2.2.2.2.2⟩

/-! ## Conversation keys of the two scopes (C6) -/

/-- C6, counterexample: the contact "@alice" writes "hello" directly and then
"@bot hey" in a group, where `SenderInGroup()` reports the same `UserName`.
Both rounds use the key "@alice": the group round hands the direct round's
turn to the completion and overwrites the entry the direct round wrote. -/
theorem C6_direct_and_group_share_key :
    helloMsg.Sender = .ok ⟨"@alice"⟩ ∧ groupMsg.SenderInGroup = .ok ⟨"@alice"⟩ ∧
    (FriendReplier.Reply helloMsg (okWorld "hi there") history).store.items "@alice" =
      some ⟨[⟨Role.user, "hello"⟩], Minute * 10⟩ ∧
    completionCalls (GroupReplier.Reply groupMsg (okWorld "yo")
        (FriendReplier.Reply helloMsg (okWorld "hi there") history).store).trace =
      [[⟨Role.user, "hello"⟩, ⟨Role.user, "@bot hey"⟩]] ∧
    (GroupReplier.Reply groupMsg (okWorld "yo")
        (FriendReplier.Reply helloMsg (okWorld "hi there") history).store).store.items "@alice" =
      some ⟨[⟨Role.user, "hello"⟩, ⟨Role.user, "@bot hey"⟩], Minute * 10⟩ :=
  ⟨rfl, rfl, by decide, by decide, by decide⟩

/-- C6, amended: `FriendReplier.Reply` runs the round under the key
`Sender().UserName` and `GroupReplier.Reply` under `SenderInGroup().UserName`,
with no scope tag.  When these two strings differ, a round in one scope leaves
the other scope's entry as it was, and the external calls and result of a round
in one scope are the same whether or not a round of the other scope ran
before it. -/
theorem C6_distinct_usernames_isolate (d g : Message) (ud ug : User) (w1 w2 : World)
    (c : Cache) (hd : d.Sender = .ok ud) (hg : g.SenderInGroup = .ok ug) :
    FriendReplier.Reply d w1 c = GPTReplier.Reply ⟨ud.UserName⟩ d w1 c ∧
    GroupReplier.Reply g w2 c = GPTReplier.Reply ⟨ug.UserName⟩ g w2 c ∧
    (ud.UserName ≠ ug.UserName →
      (FriendReplier.Reply d w1 c).store.items ug.UserName = c.items ug.UserName ∧
      (GroupReplier.Reply g w2 c).store.items ud.UserName = c.items ud.UserName ∧
      (GroupReplier.Reply g w2 (FriendReplier.Reply d w1 c).store).trace =
        (GroupReplier.Reply g w2 c).trace ∧
      (GroupReplier.Reply g w2 (FriendReplier.Reply d w1 c).store).err =
        (GroupReplier.Reply g w2 c).err ∧
      (FriendReplier.Reply d w1 (GroupReplier.Reply g w2 c).store).trace =
        (FriendReplier.Reply d w1 c).trace ∧
      (FriendReplier.Reply d w1 (GroupReplier.Reply g w2 c).store).err =
        (FriendReplier.Reply d w1 c).err) := by
  have hF : ∀ c0, FriendReplier.Reply d w1 c0 = GPTReplier.Reply ⟨ud.UserName⟩ d w1 c0 := by
    intro c0; simp only [FriendReplier.Reply, hd]
  have hG : ∀ c0, GroupReplier.Reply g w2 c0 = GPTReplier.Reply ⟨ug.UserName⟩ g w2 c0 := by
    intro c0; simp only [GroupReplier.Reply, hg]
  refine ⟨hF c, hG c, ?_⟩
  intro hne
  have h1 : (GPTReplier.Reply ⟨ud.UserName⟩ d w1 c).store.items ug.UserName =
      c.items ug.UserName :=
    reply_frame ⟨ud.UserName⟩ d w1 c ug.UserName (fun h => hne h.symm)
  have h2 : (GPTReplier.Reply ⟨ug.UserName⟩ g w2 c).store.items ud.UserName =
      c.items ud.UserName :=
    reply_frame ⟨ug.UserName⟩ g w2 c ud.UserName hne
  have h3 := reply_local ⟨ug.UserName⟩ g w2 _ c h1
  have h4 := reply_local ⟨ud.UserName⟩ d w1 _ c h2
  simp only [hF, hG]
  exact ⟨h1, h2, h3.1, h3.2, h4.1, h4.2⟩

theorem C6_distinct_usernames_isolate_witness :
    helloMsg.Sender = .ok ⟨"@alice"⟩ ∧ groupMsgBob.SenderInGroup = .ok ⟨"@bob"⟩ ∧
    (⟨"@alice"⟩ : User).UserName ≠ (⟨"@bob"⟩ : User).UserName ∧
    (GroupReplier.Reply groupMsgBob (okWorld "yo")
        (FriendReplier.Reply helloMsg (okWorld "hi there") history).store).trace =
      (GroupReplier.Reply groupMsgBob (okWorld "yo") history).trace :=
  ⟨rfl, rfl, by decide,
    ((C6_distinct_usernames_isolate helloMsg groupMsgBob ⟨"@alice"⟩ ⟨"@bob"⟩
      (okWorld "hi there") (okWorld "yo") history rfl rfl).2.2 (by decide)).2.2.1⟩

/-! ## Relayed text and returned error (C7) -/

/-- C7: for a text message `GPTReplier.Reply` makes exactly one `ReplyText`
call.  Its text is the reply when the completion succeeds and the error text
when the completion fails; in both cases the result of `Reply` is the error
result of that `ReplyText` call, so a completion error is not returned. -/
theorem C7_relay_text_and_result (r : GPTReplier) (msg : Message) (w : World) (c : Cache)
    (hText : msg.IsText = true) :
    (relayCalls (GPTReplier.Reply r msg w c).trace).length = 1 ∧
    (∀ resp, GPTClient.Completion w
        (storedHistory c r.key w.nowGet ++ [⟨Role.user, msg.Content⟩]) = .ok resp →
      relayCalls (GPTReplier.Reply r msg w c).trace = [resp] ∧
      (GPTReplier.Reply r msg w c).err = w.ReplyText resp) ∧
    (∀ e, GPTClient.Completion w
        (storedHistory c r.key w.nowGet ++ [⟨Role.user, msg.Content⟩]) = .error e →
      relayCalls (GPTReplier.Reply r msg w c).trace = [e] ∧
      (GPTReplier.Reply r msg w c).err = w.ReplyText e) := by
  cases hC : GPTClient.Completion w
      (storedHistory c r.key w.nowGet ++ [⟨Role.user, msg.Content⟩]) with
  | error e =>
    rw [reply_error r msg w c e hText hC]
    refine ⟨rfl, ?_, ?_⟩
    · intro resp h; cases h
    · intro e0 h; cases h; exact ⟨rfl, rfl⟩
  | ok resp =>
    rw [reply_ok r msg w c resp hText hC]
    refine ⟨rfl, ?_, ?_⟩
    · intro r0 h; cases h; exact ⟨rfl, rfl⟩
    · intro e h; cases h

theorem C7_relay_text_and_result_witness :
    helloMsg.IsText = true ∧
    GPTClient.Completion authFailWorld
        (storedHistory history "k" 0 ++ [⟨Role.user, "hello"⟩]) = .error "auth failed" ∧
    relayCalls (GPTReplier.Reply ⟨"k"⟩ helloMsg authFailWorld history).trace = ["auth failed"] ∧
    (GPTReplier.Reply ⟨"k"⟩ helloMsg authFailWorld history).err = none ∧
    GPTClient.Completion (relayFailWorld "hi there")
        (storedHistory history "k" 0 ++ [⟨Role.user, "hello"⟩]) = .ok "hi there" ∧
    relayCalls (GPTReplier.Reply ⟨"k"⟩ helloMsg (relayFailWorld "hi there") history).trace =
      ["hi there"] ∧
    (GPTReplier.Reply ⟨"k"⟩ helloMsg (relayFailWorld "hi there") history).err =
      some "send failed" :=
  ⟨rfl, rfl,
    ((C7_relay_text_and_result ⟨"k"⟩ helloMsg authFailWorld history rfl).2.2
      "auth failed" rfl).1,
    ((C7_relay_text_and_result ⟨"k"⟩ helloMsg authFailWorld history rfl).2.2
      "auth failed" rfl).2,
    rfl,
    ((C7_relay_text_and_result ⟨"k"⟩ helloMsg (relayFailWorld "hi there") history rfl).2.1
      "hi there" rfl).1,
    ((C7_relay_text_and_result ⟨"k"⟩ helloMsg (relayFailWorld "hi there") history rfl).2.1
      "hi there" rfl).2⟩

/-! ## Relay failure (C8) -/

/-- C8: for a text message, the cache after `GPTReplier.Reply` is the same
whatever the relay does; when the completion succeeded and the relay failed
with `e`, the round's sequence is written under the key all the same (one
`history.Set` call) and `Reply` returns `e`. -/
theorem C8_relay_failure_keeps_write (r : GPTReplier) (msg : Message) (w : World) (c : Cache)
    (relay1 relay2 : String → Option String) (hText : msg.IsText = true) :
    (GPTReplier.Reply r msg (w.withRelay relay1) c).store =
      (GPTReplier.Reply r msg (w.withRelay relay2) c).store ∧
    (∀ resp e, GPTClient.Completion w
        (storedHistory c r.key w.nowGet ++ [⟨Role.user, msg.Content⟩]) = .ok resp →
      relay1 resp = some e →
      (GPTReplier.Reply r msg (w.withRelay relay1) c).err = some e ∧
      storeWrites (GPTReplier.Reply r msg (w.withRelay relay1) c).trace =
        [(r.key, lastN 20 (storedHistory c r.key w.nowGet ++ [⟨Role.user, msg.Content⟩]))] ∧
      (GPTReplier.Reply r msg (w.withRelay relay1) c).store.items r.key =
        some ⟨lastN 20 (storedHistory c r.key w.nowGet ++ [⟨Role.user, msg.Content⟩]),
          w.nowSet + Minute * 10⟩) := by
  have hW : ∀ relay m, GPTClient.Completion (w.withRelay relay) m = GPTClient.Completion w m :=
    fun _ _ => rfl
  cases hC : GPTClient.Completion w
      (storedHistory c r.key w.nowGet ++ [⟨Role.user, msg.Content⟩]) with
  | error e =>
    rw [reply_error r msg (w.withRelay relay1) c e hText ((hW relay1 _).trans hC),
      reply_error r msg (w.withRelay relay2) c e hText ((hW relay2 _).trans hC)]
    refine ⟨rfl, ?_⟩
    intro resp e0 h; cases h
  | ok resp =>
    rw [reply_ok r msg (w.withRelay relay1) c resp hText ((hW relay1 _).trans hC),
      reply_ok r msg (w.withRelay relay2) c resp hText ((hW relay2 _).trans hC)]
    refine ⟨rfl, ?_⟩
    intro r0 e h hr
    cases h
    refine ⟨hr, rfl, ?_⟩
    simp only [set_items, if_true]
    rfl

theorem C8_relay_failure_keeps_write_witness :
    helloMsg.IsText = true ∧
    GPTClient.Completion (okWorld "hi there")
        (storedHistory history "k" 0 ++ [⟨Role.user, "hello"⟩]) = .ok "hi there" ∧
    (fun _ => some "send failed" : String → Option String) "hi there" = some "send failed" ∧
    (GPTReplier.Reply ⟨"k"⟩ helloMsg
        ((okWorld "hi there").withRelay (fun _ => some "send failed")) history).err =
      some "send failed" ∧
    (GPTReplier.Reply ⟨"k"⟩ helloMsg
        ((okWorld "hi there").withRelay (fun _ => some "send failed")) history).store =
      (GPTReplier.Reply ⟨"k"⟩ helloMsg
        ((okWorld "hi there").withRelay (fun _ => none)) history).store :=
  ⟨rfl, rfl, rfl,
    ((C8_relay_failure_keeps_write ⟨"k"⟩ helloMsg (okWorld "hi there") history
      (fun _ => some "send failed") (fun _ => none) rfl).2 "hi there" "send failed"
      rfl rfl).1,
    (C8_relay_failure_keeps_write ⟨"k"⟩ helloMsg (okWorld "hi there") history
      (fun _ => some "send failed") (fun _ => none) rfl).1⟩

/-! ## Mention gating (C9) -/

/-- C9: for a group message with `IsAt() = false` the `OnGroup` handler does
not run `GroupReplier.Reply`: it makes no external call (no completion, no
relay, no `history.Set`, no log line) and leaves the cache as it was. -/
theorem C9_mention_gating (ctx : Message) (w : World) (c : Cache) (h : ctx.IsAt = false) :
    (OnGroup ctx w c).trace = [] ∧
    completionCalls (OnGroup ctx w c).trace = [] ∧
    relayCalls (OnGroup ctx w c).trace = [] ∧
    storeWrites (OnGroup ctx w c).trace = [] ∧
    (OnGroup ctx w c).store = c := by
  have hO : OnGroup ctx w c = ⟨c, [], none⟩ := by
    simp [OnGroup, h]
  rw [hO]
  exact ⟨rfl, rfl, rfl, rfl, rfl⟩

theorem C9_mention_gating_witness :
    unmentionedMsg.IsAt = false ∧
    stringsContains unmentionedMsg.Content unmentionedMsg.OwnerNickName = true ∧
    (OnGroup unmentionedMsg (okWorld "yo") fullCache).trace = [] ∧
    (OnGroup unmentionedMsg (okWorld "yo") fullCache).store = fullCache :=
  ⟨rfl, by decide,
    (C9_mention_gating unmentionedMsg (okWorld "yo") fullCache rfl).1,
    (C9_mention_gating unmentionedMsg (okWorld "yo") fullCache rfl).2.2.2.2⟩

/-! ## Context sent to the completion service (C10) -/

/-- C10: for a text message `GPTReplier.Reply` calls the completion exactly
once, with the history loaded for the key (empty when absent) followed by the
user turn, untruncated: its length is the loaded length plus one. -/
theorem C10_completion_input (r : GPTReplier) (msg : Message) (w : World) (c : Cache)
    (hText : msg.IsText = true) :
    completionCalls (GPTReplier.Reply r msg w c).trace =
      [storedHistory c r.key w.nowGet ++ [⟨Role.user, msg.Content⟩]] ∧
    (storedHistory c r.key w.nowGet ++ [(⟨Role.user, msg.Content⟩ : CompletionMessage)]).length =
      (storedHistory c r.key w.nowGet).length + 1 ∧
    (c.items r.key = none → completionCalls (GPTReplier.Reply r msg w c).trace =
      [[⟨Role.user, msg.Content⟩]]) := by
  have h1 : completionCalls (GPTReplier.Reply r msg w c).trace =
      [storedHistory c r.key w.nowGet ++ [⟨Role.user, msg.Content⟩]] := by
    cases hC : GPTClient.Completion w
        (storedHistory c r.key w.nowGet ++ [⟨Role.user, msg.Content⟩]) with
    | error e => rw [reply_error r msg w c e hText hC]; rfl
    | ok resp => rw [reply_ok r msg w c resp hText hC]; rfl
  refine ⟨h1, by rw [List.length_append, List.length_singleton], ?_⟩
  intro hnone
  rw [h1]
  have h0 : storedHistory c r.key w.nowGet = [] := by
    unfold storedHistory Cache.Get
    rw [hnone]
    rfl
  rw [h0]
  rfl

theorem C10_completion_input_witness :
    helloMsg.IsText = true ∧
    (storedHistory fullCache "k" 0).length = 20 ∧
    completionCalls (GPTReplier.Reply ⟨"k"⟩ helloMsg (okWorld "hi there") fullCache).trace =
      [storedHistory fullCache "k" 0 ++ [⟨Role.user, "hello"⟩]] ∧
    (storedHistory fullCache "k" 0 ++ [(⟨Role.user, "hello"⟩ : CompletionMessage)]).length =
      20 + 1 ∧
    history.items "k" = none ∧
    completionCalls (GPTReplier.Reply ⟨"k"⟩ helloMsg (okWorld "hi there") history).trace =
      [[⟨Role.user, "hello"⟩]] :=
  ⟨rfl, by decide,
    (C10_completion_input ⟨"k"⟩ helloMsg (okWorld "hi there") fullCache rfl).1,
    (C10_completion_input ⟨"k"⟩ helloMsg (okWorld "hi there") fullCache rfl).2.1.trans
      (congrArg (fun n => n + 1) (by decide)),
    rfl,
    (C10_completion_input ⟨"k"⟩ helloMsg (okWorld "hi there") history rfl).2.2 rfl⟩

end WechatGPTBot
